import Mathlib

/-!
Verification of the redlens data-collection core: a shallow embedding of
`src/app/reddit_client.py`, `src/app/data_fetcher.py` and `src/app/settings.py`
together with proofs of the behavioural claims about them.

External effects (the PRAW network client, wall-clock time, logging, the
inter-request sleep) are modelled as oracle inputs: each network call that can
raise is passed in as an `Except String` value describing the outcome the
platform produced at that call site.  Everything the repository itself
computes is embedded as executable Lean definitions.
-/

namespace Redlens

/-! ## String helpers

Python's `needle in hay` substring test, embedded on character lists. -/

/-- Substring containment: `containsSub needle hay` is Python's
`needle in hay` on the character lists of the two strings. -/
def containsSub (needle : List Char) : List Char → Bool
  | [] => needle.isPrefixOf ([] : List Char)
  | c :: t => needle.isPrefixOf (c :: t) || containsSub needle t

/-! ## Candidate metadata and the safety filter
(`RedditClient.get_popular_subreddits` / `get_trending_subreddits`)

A discovery candidate is a PRAW `Subreddit` handle; the filter reads its
`display_name`, `over18` flag and `subscribers` count.  `subscribers` is
`Option Nat`: `none` models Python `None` (unknown).  Python truthiness of
`subreddit.subscribers` makes both `None` and `0` falsy. -/

structure SubCandidate where
  display_name : String
  over18 : Bool
  subscribers : Option Nat
  deriving Repr, DecidableEq

/-- The fixed block list `excluded_keywords` of
`reddit_client.py` (identical in both discovery variants). -/
def excluded_keywords : List String :=
  ["nsfw", "porn", "sex", "xxx", "adult", "onlyfans", "gone", "wild",
   "circlejerk", "jerk", "shitpost", "copypasta"]

/-- Python `any(keyword in subreddit_name_lower for keyword in excluded_keywords)`
with `subreddit_name_lower = subreddit.display_name.lower()`; lower-casing is
applied character by character, which is what `str.lower` does on the ASCII
names involved. -/
def hasExcludedKeyword (name : String) : Bool :=
  excluded_keywords.any (fun k => containsSub k.toList (name.toList.map Char.toLower))

/-- Python `subreddit.subscribers and subreddit.subscribers < threshold`:
true exactly when the count is present, nonzero (truthy) and below the
threshold. -/
def subscriberLow (threshold : Nat) (s : SubCandidate) : Bool :=
  match s.subscribers with
  | none => false
  | some n => n != 0 && decide (n < threshold)

/-- One candidate survives every rejection step of the loop body. -/
def passesFilter (threshold : Nat) (s : SubCandidate) : Bool :=
  !s.over18 && !hasExcludedKeyword s.display_name && !subscriberLow threshold s

/-- The filtering loop shared by `get_popular_subreddits` (threshold 10000)
and `get_trending_subreddits` (threshold 50000): the three `continue` guards
in source order, `filtered.append(display_name)`, and
`if len(filtered) >= limit: break`. -/
def filterLoop (threshold limit : Nat) : List SubCandidate → List String → List String
  | [], acc => acc
  | s :: rest, acc =>
    if s.over18 then filterLoop threshold limit rest acc
    else if hasExcludedKeyword s.display_name then filterLoop threshold limit rest acc
    else if subscriberLow threshold s then filterLoop threshold limit rest acc
    else if limit ≤ acc.length + 1 then acc ++ [s.display_name]
    else filterLoop threshold limit rest (acc ++ [s.display_name])

/-- `RedditClient.get_popular_subreddits`: `candidates` is the listing the
platform returned for `self.reddit.subreddits.popular(limit=limit * 2)`;
the function filters it and returns `filtered_subreddits[:limit]`. -/
def get_popular_subreddits (candidates : List SubCandidate) (limit : Nat) : List String :=
  (filterLoop 10000 limit candidates []).take limit

/-- `RedditClient.get_trending_subreddits`: same loop with threshold 50000
over the `limit * 3` listing, returning `filtered_trending[:limit]`. -/
def get_trending_subreddits (candidates : List SubCandidate) (limit : Nat) : List String :=
  (filterLoop 50000 limit candidates []).take limit

/-! ## Settings (`src/app/settings.py`) -/

/-- `DEFAULT_SUBREDDITS` from `settings.py`. -/
def DEFAULT_SUBREDDITS : List String :=
  ["technology", "MachineLearning", "programming", "science", "datascience"]

/-- `FULL_SUBREDDIT_LIST` from `settings.py`. -/
def FULL_SUBREDDIT_LIST : List String :=
  ["technology", "programming", "MachineLearning", "datascience", "artificial",
   "Python", "javascript", "webdev", "cybersecurity", "tech",
   "science", "AskScience", "math", "Physics", "chemistry",
   "biology", "space", "Futurology", "todayilearned", "explainlikeimfive",
   "news", "worldnews", "politics", "Economics", "business",
   "movies", "television", "gaming", "music", "books",
   "art", "photography", "videos", "funny", "memes",
   "fitness", "food", "cooking", "travel", "DIY",
   "personalfinance", "investing", "entrepreneur", "GetMotivated", "LifeProTips",
   "AskReddit", "IAmA", "bestof", "OutOfTheLoop", "changemyview"]

/-- The fields of `FETCHING_CONFIG` the orchestration logic reads.
`request_delay`, `max_retries` and `request_timeout` only pace or are unused
(sleeping is an external effect) and take no part in any computed value. -/
structure FetchConfig where
  posts_per_subreddit : Nat
  comments_per_post : Nat
  use_development_list : Bool
  use_dynamic_discovery : Bool
  dynamic_subreddit_count : Nat
  deriving Repr, DecidableEq

/-- `settings.get_target_subreddits`: the development list when
`use_development_list` is set, the full production list otherwise. -/
def get_target_subreddits (cfg : FetchConfig) : List String :=
  if cfg.use_development_list then DEFAULT_SUBREDDITS else FULL_SUBREDDIT_LIST

/-- `DataFetcher._get_target_subreddits`.  `popularRes` is the outcome of the
`get_popular_subreddits` call: `.ok candidates` when the platform listing
succeeded (the filter then runs on it), `.error e` when anything in that call
raised. -/
def getTargetSubreddits (cfg : FetchConfig)
    (popularRes : Except String (List SubCandidate)) : List String :=
  if cfg.use_development_list then get_target_subreddits cfg
  else if cfg.use_dynamic_discovery then
    match popularRes with
    | .ok cands => get_popular_subreddits cands cfg.dynamic_subreddit_count
    | .error _ => get_target_subreddits cfg
  else get_target_subreddits cfg

/-! ## Comment forests and `RedditClient.get_top_comments`

A post's comment listing (after `post.comments.replace_more(limit=0)`) is a
forest of nodes, each either a PRAW `Comment` (with its raw attributes and
its `replies` sub-forest) or a non-`Comment` "load more" placeholder that the
`isinstance` check skips. -/

/-- The raw attributes of a PRAW `Comment` that
`DataFetcher._extract_comment_data` reads.  `author` is `none` for a deleted
account, `depth` is `none` when the handle has no `depth` attribute. -/
structure CommentHandle where
  id : String
  author : Option String
  body : String
  score : Int
  created_utc : Int
  gilded : Nat
  is_submitter : Bool
  stickied : Bool
  permalink : String
  parent_id : String
  depth : Option Nat
  deriving Repr, DecidableEq

/-- A node of a post's comment forest: a real `Comment` carrying its replies,
or a "load more" placeholder (any non-`Comment` listing entry). -/
inductive CNode where
  | comment (data : CommentHandle) (replies : List CNode)
  | more

/-- Number of nodes in a forest; the termination measure for the
breadth-first loop, where a popped node is replaced by its replies. -/
def forestWeight : List CNode → Nat
  | [] => 0
  | .more :: rest => 1 + forestWeight rest
  | .comment _ rs :: rest => 1 + forestWeight rs + forestWeight rest

/-- The `while comment_queue and len(all_comments) < limit` loop of
`get_top_comments`: pop the queue head; a `Comment` is appended to the
accumulator and its replies are enqueued at the back, a placeholder is
dropped. -/
def bfsLoop (limit : Nat) : List CNode → List CommentHandle → List CommentHandle
  | [], acc => acc
  | .more :: rest, acc =>
    if limit ≤ acc.length then acc else bfsLoop limit rest acc
  | .comment d rs :: rest, acc =>
    if limit ≤ acc.length then acc else bfsLoop limit (rest ++ rs) (acc ++ [d])
  termination_by queue _ => forestWeight queue
  decreasing_by all_goals
    (have happ : ∀ (l₁ l₂ : List CNode),
        forestWeight (l₁ ++ l₂) = forestWeight l₁ + forestWeight l₂ := by
      intro l₁ l₂
      induction l₁ with
      | nil => simp [forestWeight]
      | cons c r ih => cases c <;> simp [forestWeight, ih] <;> omega
     simp [forestWeight, happ] <;> omega)

/-- `RedditClient.get_top_comments`: run the loop on the top-level listing
with an empty accumulator and return `all_comments[:limit]`. -/
def get_top_comments (forest : List CNode) (limit : Nat) : List CommentHandle :=
  (bfsLoop limit forest []).take limit

/-- Modelled from the spec: the full breadth-first flattening of a comment
forest ("top-level comments first, then their replies enqueued for subsequent
processing, excluding any load-more placeholder nodes"), with no truncation.
`get_top_comments` is compared against its `limit`-prefix. -/
def bfsFlattenSpec : List CNode → List CommentHandle
  | [] => []
  | .more :: rest => bfsFlattenSpec rest
  | .comment d rs :: rest => d :: bfsFlattenSpec (rest ++ rs)
  termination_by queue => forestWeight queue
  decreasing_by all_goals
    (have happ : ∀ (l₁ l₂ : List CNode),
        forestWeight (l₁ ++ l₂) = forestWeight l₁ + forestWeight l₂ := by
      intro l₁ l₂
      induction l₁ with
      | nil => simp [forestWeight]
      | cons c r ih => cases c <;> simp [forestWeight, ih] <;> omega
     simp [forestWeight, happ] <;> omega)

/-! ## Record extraction (`DataFetcher._extract_post_data` / `_extract_comment_data`)

PRAW post handles carry an `author` object (`None` for deleted accounts,
otherwise `str()`-able) — modelled as `Option String` holding the name.
Python floats whose exact values are merely copied (`upvote_ratio`,
`created_utc`) are modelled as `Rat` and `Int`; the code never computes with
them. -/

/-- The raw attributes of a PRAW `Submission` that `_extract_post_data`
reads.  `upvote_frac` models the source's `upvote_ratio` attribute. -/
structure PostHandle where
  id : String
  title : String
  author : Option String
  score : Int
  upvote_frac : Rat
  num_comments : Nat
  created_utc : Int
  url : String
  permalink : String
  selftext : String
  is_self : Bool
  domain : String
  subreddit : String
  gilded : Nat
  stickied : Bool
  over_18 : Bool
  spoiler : Bool
  locked : Bool
  deriving Repr, DecidableEq

/-- The extracted comment dictionary built by `_extract_comment_data`. -/
structure CommentRecord where
  id : String
  author : String
  body : String
  score : Int
  created_utc : Int
  gilded : Nat
  is_submitter : Bool
  stickied : Bool
  permalink : String
  parent_id : String
  depth : Nat
  deriving Repr, DecidableEq

/-- The extracted post dictionary built by `_extract_post_data`, together
with the `comments` key that `_fetch_subreddit_data` adds to it.
`upvote_frac` models the source's `upvote_ratio` key. -/
structure PostRecord where
  id : String
  title : String
  author : String
  score : Int
  upvote_frac : Rat
  num_comments : Nat
  created_utc : Int
  url : String
  permalink : String
  selftext : String
  is_self : Bool
  domain : String
  subreddit : String
  gilded : Nat
  stickied : Bool
  over_18 : Bool
  spoiler : Bool
  locked : Bool
  comments : List CommentRecord
  deriving Repr, DecidableEq

/-- Python `str(x.author) if x.author else "[deleted]"`: the author name when
an author object is present (always truthy), the sentinel otherwise. -/
def authorOrDeleted : Option String → String
  | some a => a
  | none => "[deleted]"

/-- `DataFetcher._extract_post_data`: pure field mapping; the absolute
permalink prefixes the platform base URL; `comments` is not yet present in
the Python dict and defaults to `[]` here until `_fetch_subreddit_data`
assigns it. -/
def extract_post_data (p : PostHandle) : PostRecord :=
  { id := p.id
    title := p.title
    author := authorOrDeleted p.author
    score := p.score
    upvote_frac := p.upvote_frac
    num_comments := p.num_comments
    created_utc := p.created_utc
    url := p.url
    permalink := "https://reddit.com" ++ p.permalink
    selftext := p.selftext
    is_self := p.is_self
    domain := p.domain
    subreddit := p.subreddit
    gilded := p.gilded
    stickied := p.stickied
    over_18 := p.over_18
    spoiler := p.spoiler
    locked := p.locked
    comments := [] }

/-- `DataFetcher._extract_comment_data`: pure field mapping with the same
author sentinel; `depth` falls back to `0` when the handle lacks the
attribute (`comment.depth if hasattr(comment, 'depth') else 0`). -/
def extract_comment_data (c : CommentHandle) : CommentRecord :=
  { id := c.id
    author := authorOrDeleted c.author
    body := c.body
    score := c.score
    created_utc := c.created_utc
    gilded := c.gilded
    is_submitter := c.is_submitter
    stickied := c.stickied
    permalink := "https://reddit.com" ++ c.permalink
    parent_id := c.parent_id
    depth := c.depth.getD 0 }

/-! ## Community snapshots (`DataFetcher._fetch_subreddit_data`) -/

/-- A value of the heterogeneous `get_subreddit_info` metadata mapping. -/
inductive JVal where
  | s (v : String)
  | i (v : Int)
  | b (v : Bool)
  deriving Repr, DecidableEq

/-- The community metadata mapping (`subreddit_data["info"]`). -/
abbrev InfoMap := List (String × JVal)

/-- The per-community dictionary built by `_fetch_subreddit_data`. -/
structure SubredditData where
  name : String
  fetch_timestamp : String
  info : InfoMap
  posts : List PostRecord
  deriving Repr, DecidableEq

/-- One hot post as handed to the per-post loop: the `Submission` handle and
the outcome of the `get_top_comments` attempt for it — `.ok forest` when the
platform materialised the comment forest (the pure breadth-first loop then
runs on it), `.error e` when the attempt raised. -/
structure PostFetch where
  post : PostHandle
  commentsRes : Except String (List CNode)

/-- The body of the per-post loop: extract the post record, then either
attach the extracted top comments or — when the comment fetch raised — set
`post_data["comments"] = []`. -/
def processPost (limit : Nat) (pf : PostFetch) : PostRecord :=
  match pf.commentsRes with
  | .ok forest =>
    { extract_post_data pf.post with
        comments := (get_top_comments forest limit).map extract_comment_data }
  | .error _ => { extract_post_data pf.post with comments := [] }

/-- The `try/except` around `get_subreddit_info`: on failure `info` keeps its
initial empty mapping. -/
def infoOrEmpty : Except String InfoMap → InfoMap
  | .ok i => i
  | .error _ => []

/-- `DataFetcher._fetch_subreddit_data`.  `infoRes` is the outcome of the
`get_subreddit_info` call, `postsRes` the outcome of the `get_hot_posts`
call (whose exception is the only one this function lets escape); `now` is
the wall-clock timestamp string. -/
def fetchSubredditData (cfg : FetchConfig) (name now : String)
    (infoRes : Except String InfoMap)
    (postsRes : Except String (List PostFetch)) : Except String SubredditData :=
  match postsRes with
  | .error e => .error e
  | .ok posts =>
    .ok { name := name
          fetch_timestamp := now
          info := infoOrEmpty infoRes
          posts := posts.map (processPost cfg.comments_per_post) }

/-! ## The run-level loop (`DataFetcher.fetch_all_data`)

`collected_data["subreddits"]` is a Python dict; it is modelled as an
insertion-ordered association list with overwrite-on-existing-key insertion,
exactly dict assignment semantics.  Each loop iteration's
`_fetch_subreddit_data` outcome is an oracle `Except` paired with the target
name, so one name occurring twice may succeed once and fail once, as in the
real program. -/

/-- Python `key in dict`. -/
def keyMem {α : Type} (d : List (String × α)) (k : String) : Bool :=
  d.any (fun p => p.1 == k)

/-- Python `dict[key] = value`: overwrite in place when the key exists,
append at the end otherwise. -/
def dictInsert {α : Type} (d : List (String × α)) (k : String) (v : α) :
    List (String × α) :=
  if keyMem d k then d.map (fun p => if p.1 == k then (k, v) else p)
  else d ++ [(k, v)]

/-- `collected_data["summary"]`. -/
structure Summary where
  successful_subreddits : Nat
  failed_subreddits : Nat
  total_posts : Nat
  total_comments : Nat
  errors : List (String × String)
  deriving Repr, DecidableEq

/-- `collected_data["metadata"]` (minus the wall-clock duration fields added
after the loop, which no claim concerns). -/
structure RunMetadata where
  fetch_timestamp : String
  total_subreddits : Nat
  config : FetchConfig
  subreddit_list : List String
  deriving Repr, DecidableEq

/-- The whole `collected_data` structure. -/
structure RunResult where
  metadata : RunMetadata
  subreddits : List (String × SubredditData)
  summary : Summary
  deriving Repr, DecidableEq

/-- One loop target: the subreddit name together with the outcome of
`_fetch_subreddit_data` at that iteration. -/
abbrev Target := String × Except String SubredditData

/-- One iteration of the `for subreddit_name in self.target_subreddits`
loop: the `try` arm inserts the snapshot and bumps the success counters and
totals, the `except` arm bumps the failure counter and appends the error
entry. -/
def fetchStep (st : RunResult) (t : Target) : RunResult :=
  match t.2 with
  | .ok d =>
    { st with
      subreddits := dictInsert st.subreddits t.1 d
      summary := { st.summary with
        successful_subreddits := st.summary.successful_subreddits + 1
        total_posts := st.summary.total_posts + d.posts.length
        total_comments :=
          st.summary.total_comments + (d.posts.map (fun p => p.comments.length)).sum } }
  | .error e =>
    { st with
      summary := { st.summary with
        failed_subreddits := st.summary.failed_subreddits + 1
        errors := st.summary.errors ++ [(t.1, e)] } }

/-- The `collected_data` shell built before the loop. -/
def initialRunResult (cfg : FetchConfig) (now : String) (targets : List Target) :
    RunResult :=
  { metadata := { fetch_timestamp := now
                  total_subreddits := targets.length
                  config := cfg
                  subreddit_list := targets.map Prod.fst }
    subreddits := []
    summary := { successful_subreddits := 0
                 failed_subreddits := 0
                 total_posts := 0
                 total_comments := 0
                 errors := [] } }

/-- `DataFetcher.fetch_all_data`: fold the per-target step over the targets
in order, starting from the empty shell.  The inter-target sleep and the
post-loop duration bookkeeping are external effects with no bearing on the
returned data. -/
def fetch_all_data (cfg : FetchConfig) (now : String) (targets : List Target) :
    RunResult :=
  targets.foldl fetchStep (initialRunResult cfg now targets)

/-- Sum of `len(posts)` over every snapshot stored in the `subreddits`
mapping. -/
def sumPosts (d : List (String × SubredditData)) : Nat :=
  (d.map (fun p => p.2.posts.length)).sum

/-- Sum of the lengths of the snapshots' posts' comment lists over the
`subreddits` mapping. -/
def sumComments (d : List (String × SubredditData)) : Nat :=
  (d.map (fun p => (p.2.posts.map (fun q => q.comments.length)).sum)).sum

/-! ## Concrete fixtures used by witnesses and counterexamples -/

/-- The numeric/flag values of `FETCHING_CONFIG` in `settings.py`. -/
def cfgEx : FetchConfig :=
  { posts_per_subreddit := 25
    comments_per_post := 50
    use_development_list := true
    use_dynamic_discovery := true
    dynamic_subreddit_count := 50 }

/-- `FETCHING_CONFIG` as a production run would patch it:
`use_development_list = False`, dynamic discovery on. -/
def cfgProd : FetchConfig :=
  { posts_per_subreddit := 25
    comments_per_post := 50
    use_development_list := false
    use_dynamic_discovery := true
    dynamic_subreddit_count := 50 }

/-- A concrete raw post handle. -/
def exPostHandle : PostHandle :=
  { id := "p1", title := "T", author := some "u", score := 3, upvote_frac := 1,
    num_comments := 2, created_utc := 100, url := "http://x", permalink := "/r/a/p1",
    selftext := "", is_self := false, domain := "x", subreddit := "a", gilded := 0,
    stickied := false, over_18 := false, spoiler := false, locked := false }

/-- A concrete extracted post record with one post and no comments. -/
def exPostRec : PostRecord :=
  { id := "p1", title := "T", author := "u", score := 3, upvote_frac := 1,
    num_comments := 2, created_utc := 100, url := "http://x",
    permalink := "https://reddit.com/r/a/p1", selftext := "", is_self := false,
    domain := "x", subreddit := "a", gilded := 0, stickied := false,
    over_18 := false, spoiler := false, locked := false, comments := [] }

/-- A snapshot holding exactly one post with no comments. -/
def snapOnePost : SubredditData :=
  { name := "a", fetch_timestamp := "t", info := [], posts := [exPostRec] }

/-- An empty snapshot. -/
def snapEmpty : SubredditData :=
  { name := "a", fetch_timestamp := "t", info := [], posts := [] }

/-- A post fetch whose comment retrieval raised. -/
def pfFail : PostFetch := { post := exPostHandle, commentsRes := Except.error "nope" }

/-- The snapshot `_fetch_subreddit_data` builds from `pfFail` under `cfgEx`
with a failed metadata fetch. -/
def dEx : SubredditData :=
  { name := "a", fetch_timestamp := "t", info := [],
    posts := [pfFail].map (processPost cfgEx.comments_per_post) }

/-- A duplicate-name target list where both iterations succeed with a
one-post snapshot. -/
def dupTargets : List Target :=
  [("a", Except.ok snapOnePost), ("a", Except.ok snapOnePost)]

/-- A duplicate-free target list with one success and one failure. -/
def okErrTargets : List Target :=
  [("a", Except.ok snapOnePost), ("b", Except.error "boom")]

/-- A safe discovery candidate with a healthy subscriber count. -/
def candOk : SubCandidate :=
  { display_name := "b", over18 := false, subscribers := some 20000 }

/-- A safe-looking candidate whose subscriber count is known but zero:
Python truthiness skips the threshold test for it. -/
def candZero : SubCandidate :=
  { display_name := "a", over18 := false, subscribers := some 0 }

/-! ## Theorems -/

theorem forestWeight_append (l₁ l₂ : List CNode) :
    forestWeight (l₁ ++ l₂) = forestWeight l₁ + forestWeight l₂ := by
  induction l₁ with
  | nil => simp [forestWeight]
  | cons c rest ih => cases c <;> simp [forestWeight, ih] <;> omega

theorem bfsLoop_eq (limit : Nat) :
    ∀ (n : Nat) (queue : List CNode) (acc : List CommentHandle),
      forestWeight queue ≤ n → acc.length ≤ limit →
      bfsLoop limit queue acc = acc ++ (bfsFlattenSpec queue).take (limit - acc.length) := by
  intro n
  induction n with
  | zero =>
    intro queue acc hw _
    cases queue with
    | nil => simp [bfsLoop, bfsFlattenSpec]
    | cons c rest => cases c <;> simp [forestWeight] at hw
  | succ n ih =>
    intro queue acc hw hacc
    cases queue with
    | nil => simp [bfsLoop, bfsFlattenSpec]
    | cons c rest =>
      by_cases hlim : limit ≤ acc.length
      · have heq : limit - acc.length = 0 := Nat.sub_eq_zero_of_le hlim
        cases c <;> simp [bfsLoop, hlim, heq]
      · cases c with
        | more =>
          have hw' : forestWeight rest ≤ n := by
            simp [forestWeight] at hw; omega
          simp only [bfsLoop, bfsFlattenSpec, if_neg hlim]
          exact ih rest acc hw' hacc
        | comment d rs =>
          have hw' : forestWeight (rest ++ rs) ≤ n := by
            rw [forestWeight_append]; simp [forestWeight] at hw; omega
          have hacc' : (acc ++ [d]).length ≤ limit := by
            simp only [List.length_append, List.length_cons, List.length_nil]
            omega
          have key := ih (rest ++ rs) (acc ++ [d]) hw' hacc'
          simp only [List.length_append, List.length_cons, List.length_nil] at key
          simp only [bfsLoop, bfsFlattenSpec, if_neg hlim]
          rw [key]
          have hk : limit - acc.length = (limit - (acc.length + (0 + 1))) + 1 := by omega
          rw [hk, List.take_succ_cons]
          simp

theorem get_top_comments_eq (forest : List CNode) (limit : Nat) :
    get_top_comments forest limit = (bfsFlattenSpec forest).take limit := by
  unfold get_top_comments
  rw [bfsLoop_eq limit (forestWeight forest) forest [] le_rfl (by simp)]
  simp [List.take_take]

/-- Claim C3: for every comment forest and limit, `get_top_comments` returns
exactly the `limit`-prefix of the breadth-first flattening of the forest
(top-level comments first, replies enqueued behind the queue, load-more
placeholders excluded), its length is `min limit (forest flattening size)`,
and it never exceeds the limit. -/
theorem claim_C3 (forest : List CNode) (limit : Nat) :
    get_top_comments forest limit = (bfsFlattenSpec forest).take limit ∧
    (get_top_comments forest limit).length = min limit (bfsFlattenSpec forest).length ∧
    (get_top_comments forest limit).length ≤ limit := by
  refine ⟨get_top_comments_eq forest limit, ?_, ?_⟩ <;>
    rw [get_top_comments_eq] <;> simp [List.length_take]

theorem filterLoop_eq (threshold limit : Nat) :
    ∀ (cands : List SubCandidate) (acc : List String), acc.length < limit →
      filterLoop threshold limit cands acc =
        (acc ++ (cands.filter (passesFilter threshold)).map
            (fun s => s.display_name)).take limit := by
  intro cands
  induction cands with
  | nil =>
    intro acc hacc
    simp only [filterLoop, List.filter_nil, List.map_nil, List.append_nil]
    rw [List.take_of_length_le (Nat.le_of_lt hacc)]
  | cons s rest ih =>
    intro acc hacc
    by_cases h1 : s.over18
    · simp only [filterLoop, if_pos h1, List.filter_cons,
        show passesFilter threshold s = false by simp [passesFilter, h1]]
      simp only [Bool.false_eq_true, if_neg (by simp : ¬ False)]
      exact ih acc hacc
    · by_cases h2 : hasExcludedKeyword s.display_name
      · simp only [filterLoop, if_neg h1, if_pos h2, List.filter_cons,
          show passesFilter threshold s = false by simp [passesFilter, h1, h2]]
        simp only [Bool.false_eq_true, if_neg (by simp : ¬ False)]
        exact ih acc hacc
      · by_cases h3 : subscriberLow threshold s
        · simp only [filterLoop, if_neg h1, if_neg h2, if_pos h3, List.filter_cons,
            show passesFilter threshold s = false by simp [passesFilter, h1, h2, h3]]
          simp only [Bool.false_eq_true, if_neg (by simp : ¬ False)]
          exact ih acc hacc
        · have hpass : passesFilter threshold s = true := by
            simp [passesFilter, h1, h2, h3]
          by_cases h4 : limit ≤ acc.length + 1
          · have hlim : limit = acc.length + 1 := by omega
            simp only [filterLoop, if_neg h1, if_neg h2, if_neg h3, if_pos h4,
              List.filter_cons, hpass, if_pos trivial, List.map_cons]
            rw [hlim, List.take_append_eq_append_take,
              List.take_of_length_le (by omega)]
            simp [Nat.add_sub_cancel_left]
          · have hacc' : (acc ++ [s.display_name]).length < limit := by
              simp only [List.length_append, List.length_cons, List.length_nil]
              omega
            simp only [filterLoop, if_neg h1, if_neg h2, if_neg h3, if_neg h4,
              List.filter_cons, hpass, if_pos trivial, List.map_cons]
            rw [ih (acc ++ [s.display_name]) hacc']
            simp

theorem getPopular_eq (cands : List SubCandidate) (limit : Nat) :
    get_popular_subreddits cands limit =
      ((cands.filter (passesFilter 10000)).map (fun s => s.display_name)).take limit := by
  unfold get_popular_subreddits
  rcases Nat.eq_zero_or_pos limit with h | h
  · subst h; simp
  · rw [filterLoop_eq 10000 limit cands [] (by simpa using h)]
    simp [List.take_take]

theorem getTrending_eq (cands : List SubCandidate) (limit : Nat) :
    get_trending_subreddits cands limit =
      ((cands.filter (passesFilter 50000)).map (fun s => s.display_name)).take limit := by
  unfold get_trending_subreddits
  rcases Nat.eq_zero_or_pos limit with h | h
  · subst h; simp
  · rw [filterLoop_eq 50000 limit cands [] (by simpa using h)]
    simp [List.take_take]

theorem passesFilter_spec (threshold : Nat) (s : SubCandidate)
    (h : passesFilter threshold s = true) :
    s.over18 = false ∧ hasExcludedKeyword s.display_name = false ∧
      ∀ k, s.subscribers = some k → k ≠ 0 → threshold ≤ k := by
  simp only [passesFilter, Bool.and_eq_true, Bool.not_eq_true'] at h
  obtain ⟨⟨h1, h2⟩, h3⟩ := h
  refine ⟨h1, h2, ?_⟩
  intro k hk hk0
  rw [subscriberLow, hk] at h3
  simp only [Bool.and_eq_false_iff, bne_eq_false_iff_eq, decide_eq_false_iff_not,
    Nat.not_lt] at h3
  rcases h3 with h | h
  · exact absurd h hk0
  · exact h

theorem mem_filtered (threshold : Nat) (cands : List SubCandidate) (limit : Nat)
    (name : String)
    (h : name ∈ ((cands.filter (passesFilter threshold)).map
        (fun s => s.display_name)).take limit) :
    ∃ s, s ∈ cands ∧ s.display_name = name ∧ s.over18 = false ∧
      hasExcludedKeyword s.display_name = false ∧
      ∀ k, s.subscribers = some k → k ≠ 0 → threshold ≤ k := by
  have hmem := List.take_subset _ _ h
  rcases List.mem_map.mp hmem with ⟨s, hs, rfl⟩
  rcases List.mem_filter.mp hs with ⟨hin, hpass⟩
  obtain ⟨h1, h2, h3⟩ := passesFilter_spec threshold s hpass
  exact ⟨s, hin, rfl, h1, h2, h3⟩

/-- Claim C7: the list `get_popular_subreddits` returns is at most `limit`
long, is a subsequence of the candidates' display names in their original
popularity order, and equals the `limit`-prefix of the names of the
candidates that pass the safety filter — so once the accepted count reaches
the limit no later candidate contributes. -/
theorem claim_C7 (cands : List SubCandidate) (limit : Nat) :
    (get_popular_subreddits cands limit).length ≤ limit ∧
    (get_popular_subreddits cands limit).Sublist
      (cands.map (fun s => s.display_name)) ∧
    get_popular_subreddits cands limit =
      ((cands.filter (passesFilter 10000)).map (fun s => s.display_name)).take limit := by
  refine ⟨?_, ?_, getPopular_eq cands limit⟩
  · rw [getPopular_eq]; simp [List.length_take]
  · rw [getPopular_eq]
    exact (List.take_sublist _ _).trans ((List.filter_sublist cands).map _)

/-- Claim C2, amended: every name returned by `get_popular_subreddits`
(resp. `get_trending_subreddits`) comes from a candidate that is not
over-18, whose lower-cased name contains no block-list substring, and whose
subscriber count — whenever known and nonzero (Python truthiness skips the
threshold test for a count of `0`) — is at least 10000 (resp. 50000). -/
theorem claim_C2 :
    (∀ (cands : List SubCandidate) (limit : Nat) (name : String),
        name ∈ get_popular_subreddits cands limit →
        ∃ s, s ∈ cands ∧ s.display_name = name ∧ s.over18 = false ∧
          hasExcludedKeyword s.display_name = false ∧
          ∀ k, s.subscribers = some k → k ≠ 0 → 10000 ≤ k) ∧
    (∀ (cands : List SubCandidate) (limit : Nat) (name : String),
        name ∈ get_trending_subreddits cands limit →
        ∃ s, s ∈ cands ∧ s.display_name = name ∧ s.over18 = false ∧
          hasExcludedKeyword s.display_name = false ∧
          ∀ k, s.subscribers = some k → k ≠ 0 → 50000 ≤ k) := by
  constructor
  · intro cands limit name h
    rw [getPopular_eq] at h
    exact mem_filtered 10000 cands limit name h
  · intro cands limit name h
    rw [getTrending_eq] at h
    exact mem_filtered 50000 cands limit name h

/-- Claim C2, counterexample: a candidate with a known subscriber count of
`0` is accepted by `get_popular_subreddits` even though its count is known
and below 10000, because Python's `subreddit.subscribers and ...` treats `0`
as falsy and skips the threshold test. -/
theorem claim_C2_counterexample :
    "a" ∈ get_popular_subreddits [candZero] 5 ∧
    ¬ (∃ s, s ∈ [candZero] ∧ s.display_name = "a" ∧
        ∀ k, s.subscribers = some k → 10000 ≤ k) := by
  constructor
  · decide
  · rintro ⟨s, hs, _, hk⟩
    simp only [List.mem_singleton] at hs
    subst hs
    have := hk 0 rfl
    omega

/-- Claim C2, witness: the amended theorem applied to a concrete accepted
candidate with 20000 subscribers. -/
theorem claim_C2_witness :
    "b" ∈ get_popular_subreddits [candOk] 5 ∧
    (∃ s, s ∈ [candOk] ∧ s.display_name = "b" ∧ s.over18 = false ∧
      hasExcludedKeyword s.display_name = false ∧
      ∀ k, s.subscribers = some k → k ≠ 0 → 10000 ≤ k) :=
  ⟨by decide, claim_C2.1 [candOk] 5 "b" (by decide)⟩

@[simp] theorem fetchStep_ok_subreddits (st : RunResult) (name : String) (d : SubredditData) :
    (fetchStep st (name, Except.ok d)).subreddits = dictInsert st.subreddits name d := rfl

@[simp] theorem fetchStep_ok_successful (st : RunResult) (name : String) (d : SubredditData) :
    (fetchStep st (name, Except.ok d)).summary.successful_subreddits
      = st.summary.successful_subreddits + 1 := rfl

@[simp] theorem fetchStep_ok_failed (st : RunResult) (name : String) (d : SubredditData) :
    (fetchStep st (name, Except.ok d)).summary.failed_subreddits
      = st.summary.failed_subreddits := rfl

@[simp] theorem fetchStep_ok_total_posts (st : RunResult) (name : String) (d : SubredditData) :
    (fetchStep st (name, Except.ok d)).summary.total_posts
      = st.summary.total_posts + d.posts.length := rfl

@[simp] theorem fetchStep_ok_total_comments (st : RunResult) (name : String) (d : SubredditData) :
    (fetchStep st (name, Except.ok d)).summary.total_comments
      = st.summary.total_comments + (d.posts.map (fun p => p.comments.length)).sum := rfl

@[simp] theorem fetchStep_ok_errors (st : RunResult) (name : String) (d : SubredditData) :
    (fetchStep st (name, Except.ok d)).summary.errors = st.summary.errors := rfl

@[simp] theorem fetchStep_ok_metadata (st : RunResult) (name : String) (d : SubredditData) :
    (fetchStep st (name, Except.ok d)).metadata = st.metadata := rfl

@[simp] theorem fetchStep_error_subreddits (st : RunResult) (name e : String) :
    (fetchStep st (name, Except.error e)).subreddits = st.subreddits := rfl

@[simp] theorem fetchStep_error_successful (st : RunResult) (name e : String) :
    (fetchStep st (name, Except.error e)).summary.successful_subreddits
      = st.summary.successful_subreddits := rfl

@[simp] theorem fetchStep_error_failed (st : RunResult) (name e : String) :
    (fetchStep st (name, Except.error e)).summary.failed_subreddits
      = st.summary.failed_subreddits + 1 := rfl

@[simp] theorem fetchStep_error_total_posts (st : RunResult) (name e : String) :
    (fetchStep st (name, Except.error e)).summary.total_posts
      = st.summary.total_posts := rfl

@[simp] theorem fetchStep_error_total_comments (st : RunResult) (name e : String) :
    (fetchStep st (name, Except.error e)).summary.total_comments
      = st.summary.total_comments := rfl

@[simp] theorem fetchStep_error_errors (st : RunResult) (name e : String) :
    (fetchStep st (name, Except.error e)).summary.errors
      = st.summary.errors ++ [(name, e)] := rfl

@[simp] theorem fetchStep_error_metadata (st : RunResult) (name e : String) :
    (fetchStep st (name, Except.error e)).metadata = st.metadata := rfl

theorem keyMem_append {α : Type} (d₁ d₂ : List (String × α)) (k : String) :
    keyMem (d₁ ++ d₂) k = (keyMem d₁ k || keyMem d₂ k) := by
  simp [keyMem]

theorem keyMem_singleton {α : Type} (name : String) (v : α) (k : String) :
    keyMem [(name, v)] k = (name == k) := by
  simp [keyMem]

theorem dictInsert_fresh {α : Type} (d : List (String × α)) (k : String) (v : α)
    (h : keyMem d k = false) : dictInsert d k v = d ++ [(k, v)] := by
  simp [dictInsert, h]

theorem sumPosts_append (d : List (String × SubredditData)) (name : String)
    (v : SubredditData) :
    sumPosts (d ++ [(name, v)]) = sumPosts d + v.posts.length := by
  simp [sumPosts]

theorem sumComments_append (d : List (String × SubredditData)) (name : String)
    (v : SubredditData) :
    sumComments (d ++ [(name, v)])
      = sumComments d + (v.posts.map (fun p => p.comments.length)).sum := by
  simp [sumComments]

theorem foldl_fetchStep_inv :
    ∀ (targets : List Target) (st : RunResult),
      (targets.map Prod.fst).Nodup →
      (∀ n ∈ targets.map Prod.fst, keyMem st.subreddits n = false) →
      (∀ n ∈ targets.map Prod.fst, ∀ e ∈ st.summary.errors, e.1 ≠ n) →
      st.summary.total_posts = sumPosts st.subreddits →
      st.summary.total_comments = sumComments st.subreddits →
      (∀ e ∈ st.summary.errors, keyMem st.subreddits e.1 = false) →
      ((targets.foldl fetchStep st).summary.total_posts
          = sumPosts (targets.foldl fetchStep st).subreddits ∧
        (targets.foldl fetchStep st).summary.total_comments
          = sumComments (targets.foldl fetchStep st).subreddits ∧
        ∀ e ∈ (targets.foldl fetchStep st).summary.errors,
          keyMem (targets.foldl fetchStep st).subreddits e.1 = false) := by
  intro targets
  induction targets with
  | nil =>
    intro st _ _ _ h1 h2 h3
    exact ⟨h1, h2, h3⟩
  | cons t rest ih =>
    intro st hnd hkey herr h1 h2 h3
    obtain ⟨name, outcome⟩ := t
    have hnd' : (rest.map Prod.fst).Nodup := by
      simp only [List.map_cons, List.nodup_cons] at hnd
      exact hnd.2
    have hnotin : name ∉ rest.map Prod.fst := by
      simp only [List.map_cons, List.nodup_cons] at hnd
      exact hnd.1
    have hname_key : keyMem st.subreddits name = false := hkey name (by simp)
    have hname_err : ∀ e ∈ st.summary.errors, e.1 ≠ name := herr name (by simp)
    simp only [List.foldl_cons]
    cases outcome with
    | ok d =>
      apply ih
      · exact hnd'
      · intro n hn
        simp only [fetchStep_ok_subreddits]
        rw [dictInsert_fresh _ _ _ hname_key, keyMem_append, keyMem_singleton]
        have h5 : keyMem st.subreddits n = false := hkey n (by simp [hn])
        have h6 : (name == n) = false := by
          refine beq_eq_false_iff_ne.mpr ?_
          intro hEq
          exact hnotin (hEq ▸ hn)
        rw [h5, h6]
        rfl
      · intro n hn e he
        simp only [fetchStep_ok_errors] at he
        exact herr n (by simp [hn]) e he
      · simp only [fetchStep_ok_total_posts, fetchStep_ok_subreddits]
        rw [dictInsert_fresh _ _ _ hname_key, sumPosts_append, h1]
      · simp only [fetchStep_ok_total_comments, fetchStep_ok_subreddits]
        rw [dictInsert_fresh _ _ _ hname_key, sumComments_append, h2]
      · intro e he
        simp only [fetchStep_ok_errors] at he
        simp only [fetchStep_ok_subreddits]
        rw [dictInsert_fresh _ _ _ hname_key, keyMem_append, keyMem_singleton]
        have h5 := h3 e he
        have h6 : (name == e.1) = false := by
          refine beq_eq_false_iff_ne.mpr ?_
          intro hEq
          exact hname_err e he hEq.symm
        rw [h5, h6]
        rfl
    | error err =>
      apply ih
      · exact hnd'
      · intro n hn
        simp only [fetchStep_error_subreddits]
        exact hkey n (by simp [hn])
      · intro n hn e' he'
        simp only [fetchStep_error_errors] at he'
        rcases List.mem_append.mp he' with h | h
        · exact herr n (by simp [hn]) e' h
        · simp only [List.mem_singleton] at h
          subst h
          intro hEq
          simp only at hEq
          exact hnotin (hEq ▸ hn)
      · simp only [fetchStep_error_total_posts, fetchStep_error_subreddits]
        exact h1
      · simp only [fetchStep_error_total_comments, fetchStep_error_subreddits]
        exact h2
      · intro e' he'
        simp only [fetchStep_error_errors] at he'
        simp only [fetchStep_error_subreddits]
        rcases List.mem_append.mp he' with h | h
        · exact h3 e' h
        · simp only [List.mem_singleton] at h
          subst h
          exact hname_key

/-- Claim C1, amended: for every run of `fetch_all_data` over a target list
whose community names are pairwise distinct, `summary.total_posts` is the
sum of `len(posts)` over the snapshots stored in the `subreddits` mapping,
`summary.total_comments` is the sum of those snapshots' posts' comment-list
lengths, and no community named in `summary.errors` is a key of the
mapping. -/
theorem claim_C1 (cfg : FetchConfig) (now : String) (targets : List Target)
    (h : (targets.map Prod.fst).Nodup) :
    (fetch_all_data cfg now targets).summary.total_posts
        = sumPosts (fetch_all_data cfg now targets).subreddits ∧
    (fetch_all_data cfg now targets).summary.total_comments
        = sumComments (fetch_all_data cfg now targets).subreddits ∧
    ∀ e ∈ (fetch_all_data cfg now targets).summary.errors,
      keyMem (fetch_all_data cfg now targets).subreddits e.1 = false := by
  unfold fetch_all_data
  apply foldl_fetchStep_inv targets (initialRunResult cfg now targets) h
  · intro n _
    rfl
  · intro n _ e he
    simp [initialRunResult] at he
  · rfl
  · rfl
  · intro e he
    simp [initialRunResult] at he

/-- Claim C1, witness: the amended theorem at a duplicate-free two-target
run with one success and one failure. -/
theorem claim_C1_witness :
    (okErrTargets.map Prod.fst).Nodup ∧
    ((fetch_all_data cfgEx "t" okErrTargets).summary.total_posts
        = sumPosts (fetch_all_data cfgEx "t" okErrTargets).subreddits ∧
      (fetch_all_data cfgEx "t" okErrTargets).summary.total_comments
        = sumComments (fetch_all_data cfgEx "t" okErrTargets).subreddits ∧
      ∀ e ∈ (fetch_all_data cfgEx "t" okErrTargets).summary.errors,
        keyMem (fetch_all_data cfgEx "t" okErrTargets).subreddits e.1 = false) :=
  ⟨by decide, claim_C1 cfgEx "t" okErrTargets (by decide)⟩

/-- Claim C1, counterexample: with the duplicated target name `"a"`
succeeding twice, the dict entry is overwritten, so the mapping holds one
one-post snapshot while `total_posts` is 2 — the claimed equality fails for
lists with duplicate community names. -/
theorem claim_C1_counterexample :
    ¬ ((fetch_all_data cfgEx "t" dupTargets).summary.total_posts
        = sumPosts (fetch_all_data cfgEx "t" dupTargets).subreddits) := by
  decide

/-- Claim C4: a per-community fetch failure increments
`failed_subreddits` by exactly one, appends exactly one
`{subreddit, error}` entry, inserts no snapshot, leaves the success counter
and both totals unchanged, and the fold continues with the remaining
targets. -/
theorem claim_C4 (st : RunResult) (name e : String) (rest : List Target) :
    (fetchStep st (name, Except.error e)).summary.failed_subreddits
        = st.summary.failed_subreddits + 1 ∧
    (fetchStep st (name, Except.error e)).summary.errors
        = st.summary.errors ++ [(name, e)] ∧
    (fetchStep st (name, Except.error e)).subreddits = st.subreddits ∧
    (fetchStep st (name, Except.error e)).summary.successful_subreddits
        = st.summary.successful_subreddits ∧
    (fetchStep st (name, Except.error e)).summary.total_posts
        = st.summary.total_posts ∧
    (fetchStep st (name, Except.error e)).summary.total_comments
        = st.summary.total_comments ∧
    List.foldl fetchStep st ((name, Except.error e) :: rest)
        = List.foldl fetchStep (fetchStep st (name, Except.error e)) rest :=
  ⟨rfl, rfl, rfl, rfl, rfl, rfl, rfl⟩

theorem foldl_counts :
    ∀ (targets : List Target) (st : RunResult),
      ((targets.foldl fetchStep st).summary.successful_subreddits
          + (targets.foldl fetchStep st).summary.failed_subreddits
        = st.summary.successful_subreddits + st.summary.failed_subreddits
          + targets.length) ∧
      ((targets.foldl fetchStep st).summary.failed_subreddits
          + st.summary.errors.length
        = st.summary.failed_subreddits
          + (targets.foldl fetchStep st).summary.errors.length) ∧
      (targets.foldl fetchStep st).metadata = st.metadata := by
  intro targets
  induction targets with
  | nil => intro st; simp
  | cons t rest ih =>
    intro st
    obtain ⟨name, outcome⟩ := t
    simp only [List.foldl_cons, List.length_cons]
    cases outcome with
    | ok d =>
      obtain ⟨i1, i2, i3⟩ := ih (fetchStep st (name, Except.ok d))
      refine ⟨?_, ?_, ?_⟩
      · simp only [fetchStep_ok_successful, fetchStep_ok_failed] at i1
        omega
      · simp only [fetchStep_ok_errors, fetchStep_ok_failed] at i2
        exact i2
      · exact i3
    | error e =>
      obtain ⟨i1, i2, i3⟩ := ih (fetchStep st (name, Except.error e))
      refine ⟨?_, ?_, ?_⟩
      · simp only [fetchStep_error_successful, fetchStep_error_failed] at i1
        omega
      · simp only [fetchStep_error_errors, fetchStep_error_failed,
          List.length_append, List.length_cons, List.length_nil] at i2
        omega
      · exact i3

/-- Claim C10: over a target list of length N,
`successful_subreddits + failed_subreddits = N`, the metadata records
`total_subreddits = N` and a subreddit list of length N, and
`failed_subreddits` equals the number of error entries. -/
theorem claim_C10 (cfg : FetchConfig) (now : String) (targets : List Target) :
    (fetch_all_data cfg now targets).summary.successful_subreddits
        + (fetch_all_data cfg now targets).summary.failed_subreddits
      = targets.length ∧
    (fetch_all_data cfg now targets).metadata.total_subreddits = targets.length ∧
    (fetch_all_data cfg now targets).metadata.subreddit_list.length
      = targets.length ∧
    (fetch_all_data cfg now targets).summary.failed_subreddits
      = (fetch_all_data cfg now targets).summary.errors.length := by
  obtain ⟨i1, i2, i3⟩ := foldl_counts targets (initialRunResult cfg now targets)
  unfold fetch_all_data
  refine ⟨?_, ?_, ?_, ?_⟩
  · rw [i1]; simp [initialRunResult]
  · rw [i3]; simp [initialRunResult]
  · rw [i3]; simp [initialRunResult]
  · simpa [initialRunResult] using i2

/-- Claim C5: inside `_fetch_subreddit_data`, per-item failures are
recovered locally: with the post listing delivered, the function returns a
snapshot (never an error) in which a failed metadata fetch leaves `info`
empty, every listed post is processed, and a post whose comment fetch
failed gets an empty `comments` sequence without affecting other posts. -/
theorem claim_C5 (cfg : FetchConfig) (name now : String)
    (infoRes : Except String InfoMap) (posts : List PostFetch) :
    fetchSubredditData cfg name now infoRes (Except.ok posts)
      = Except.ok { name := name, fetch_timestamp := now,
                    info := infoOrEmpty infoRes,
                    posts := posts.map (processPost cfg.comments_per_post) } ∧
    (∀ e, infoRes = Except.error e → infoOrEmpty infoRes = []) ∧
    (posts.map (processPost cfg.comments_per_post)).length = posts.length ∧
    (∀ pf : PostFetch, ∀ e, pf.commentsRes = Except.error e →
        (processPost cfg.comments_per_post pf).comments = []) := by
  refine ⟨rfl, ?_, by simp, ?_⟩
  · intro e he
    rw [he]
    rfl
  · intro pf e he
    simp [processPost, he]

/-- Claim C5, witness: a run with a failed metadata fetch and a single post
whose comment fetch failed. -/
theorem claim_C5_witness :
    fetchSubredditData cfgEx "a" "t" (Except.error "boom") (Except.ok [pfFail])
      = Except.ok { name := "a", fetch_timestamp := "t",
                    info := infoOrEmpty (Except.error "boom"),
                    posts := [pfFail].map (processPost cfgEx.comments_per_post) } ∧
    infoOrEmpty (Except.error "boom") = ([] : InfoMap) ∧
    (processPost cfgEx.comments_per_post pfFail).comments = [] :=
  ⟨(claim_C5 cfgEx "a" "t" (Except.error "boom") [pfFail]).1,
   (claim_C5 cfgEx "a" "t" (Except.error "boom") [pfFail]).2.1 "boom" rfl,
   (claim_C5 cfgEx "a" "t" (Except.error "boom") [pfFail]).2.2.2 pfFail "nope" rfl⟩

/-- Claim C6: with the development list off and dynamic discovery on, a
failure of the popular-subreddits call makes `_get_target_subreddits`
return the configured static list (the `get_target_subreddits()` result),
propagating no exception. -/
theorem claim_C6 (cfg : FetchConfig) (e : String)
    (h1 : cfg.use_development_list = false)
    (h2 : cfg.use_dynamic_discovery = true) :
    getTargetSubreddits cfg (Except.error e) = get_target_subreddits cfg := by
  simp [getTargetSubreddits, h1, h2]

/-- Claim C6, witness: the production configuration with a failed
discovery call. -/
theorem claim_C6_witness :
    cfgProd.use_development_list = false ∧
    cfgProd.use_dynamic_discovery = true ∧
    getTargetSubreddits cfgProd (Except.error "network down")
      = get_target_subreddits cfgProd :=
  ⟨rfl, rfl, claim_C6 cfgProd "network down" rfl rfl⟩

/-- Claim C8: when the platform honours the `posts_per_subreddit` limit of
the hot-post listing, every snapshot `_fetch_subreddit_data` builds has at
most `posts_per_subreddit` posts, and each post record carries at most
`comments_per_post` comments. -/
theorem claim_C8 (cfg : FetchConfig) (name now : String)
    (infoRes : Except String InfoMap) (posts : List PostFetch) (d : SubredditData)
    (hlen : posts.length ≤ cfg.posts_per_subreddit)
    (hd : fetchSubredditData cfg name now infoRes (Except.ok posts) = Except.ok d) :
    d.posts.length ≤ cfg.posts_per_subreddit ∧
    ∀ p ∈ d.posts, p.comments.length ≤ cfg.comments_per_post := by
  have hposts : d.posts = posts.map (processPost cfg.comments_per_post) := by
    have h := hd
    simp only [fetchSubredditData, Except.ok.injEq] at h
    rw [← h]
  constructor
  · rw [hposts, List.length_map]
    exact hlen
  · intro p hp
    rw [hposts] at hp
    rcases List.mem_map.mp hp with ⟨pf, _, rfl⟩
    cases hres : pf.commentsRes with
    | error e2 => simp [processPost, hres]
    | ok forest =>
      simp only [processPost, hres]
      show ((get_top_comments forest cfg.comments_per_post).map
          extract_comment_data).length ≤ cfg.comments_per_post
      rw [List.length_map]
      exact List.length_take_le _ _

/-- Claim C8, witness: one post (≤ 25) whose comment fetch failed (0 ≤ 50
comments). -/
theorem claim_C8_witness :
    [pfFail].length ≤ cfgEx.posts_per_subreddit ∧
    (dEx.posts.length ≤ cfgEx.posts_per_subreddit ∧
      ∀ p ∈ dEx.posts, p.comments.length ≤ cfgEx.comments_per_post) :=
  ⟨by decide, claim_C8 cfgEx "a" "t" (Except.error "x") [pfFail] dEx (by decide) rfl⟩

/-- Claim C9: both extraction functions map a null/absent author to exactly
the sentinel string "[deleted]" — which is not the empty string — and a
present author to its string form; the field is always populated. -/
theorem claim_C9 (p : PostHandle) (c : CommentHandle) :
    (extract_post_data p).author = authorOrDeleted p.author ∧
    (extract_comment_data c).author = authorOrDeleted c.author ∧
    authorOrDeleted none = "[deleted]" ∧
    "[deleted]" ≠ "" ∧
    (∀ a, authorOrDeleted (some a) = a) :=
  ⟨rfl, rfl, rfl, by decide, fun _ => rfl⟩

end Redlens
